import Mathlib

/-!
Verification development for the LoRa-Comm repository.

The repository has two Python source files:
* `main.py` — a FastAPI service: hazard thresholds, `get_detailed_alerts`
  (per-step classification), `get_reticulum_summary` (status, hourly
  aggregation, deduplicated alert list), and the endpoint handlers.
* `payload.py` — the serial ingestion loop: line-oriented frame assembly
  (brace counting), quote normalization, JSON parse, CSV/JSON persistence,
  the two oracle HTTP calls, and MeshChat dispatch.

Real numbers of the Python code are modelled as rationals `ℚ`; the numeric
comparisons involved use only small decimal constants, so no float-specific
behavior is relevant to the properties below.
-/

namespace LoRaComm

/-- One forecast/reading row: (nh3, ch4, co, temp, humidity). -/
abbrev Row : Type := ℚ × ℚ × ℚ × ℚ × ℚ

/-! ### Thresholds (main.py, `THRESHOLDS` dict, lines 21-27) -/

def NH3_warning : ℚ := 25
def NH3_danger : ℚ := 50
def CH4_warning : ℚ := 1000
def CH4_danger : ℚ := 50000
def CO_warning : ℚ := 35
def CO_danger : ℚ := 200
def Temp_warning : ℚ := 30
def Temp_danger : ℚ := 35
def Humidity_warning_low : ℚ := 30
def Humidity_danger_low : ℚ := 20
def Humidity_warning_high : ℚ := 70
def Humidity_danger_high : ℚ := 80

/-! ### Alert labels (the string literals of main.py) -/

def nh3DangerMsg : String := "🚨 NH3 critical—Evacuate immediately!"
def nh3WarningMsg : String := "⚠️ NH3 high—Ventilate & monitor!"
def ch4DangerMsg : String := "🚨 CH4 explosive risk—Evacuate!"
def ch4WarningMsg : String := "⚠️ CH4 elevated—Increase ventilation!"
def coDangerMsg : String := "🚨 CO life-threatening—Seek fresh air now!"
def coWarningMsg : String := "⚠️ CO rising—Check ventilation!"
def tempDangerMsg : String := "🔥 Extreme heat—Cool down & hydrate!"
def tempWarningMsg : String := "🌡️ Warm—Monitor for heat stress."
def humDangerLowMsg : String := "💧 Very dry—Risk of dehydration!"
def humWarningLowMsg : String := "💧 Dry air—Increase humidity."
def humDangerHighMsg : String := "💦 Very humid—Mold risk, dehumidify!"
def humWarningHighMsg : String := "💦 Humid—Ventilate to reduce moisture."
def allClearMsg : String := "✅ All levels safe."
def noHazardsMsg : String := "✅ No hazards detected."

/-! ### `get_detailed_alerts` (main.py lines 116-148)

The Python body appends to `status` one block per dimension, each block an
`if danger / elif warning` cascade (humidity: `if danger_low / elif
warning_low / elif danger_high / elif warning_high`), then returns
`status or ["✅ All levels safe."]`.  Sequential appending of independent
blocks is modelled as concatenation of the per-dimension blocks, in the
source order. -/

def nh3Alerts (nh3 : ℚ) : List String :=
  if nh3 > NH3_danger then [nh3DangerMsg]
  else if nh3 > NH3_warning then [nh3WarningMsg]
  else []

def ch4Alerts (ch4 : ℚ) : List String :=
  if ch4 > CH4_danger then [ch4DangerMsg]
  else if ch4 > CH4_warning then [ch4WarningMsg]
  else []

def coAlerts (co : ℚ) : List String :=
  if co > CO_danger then [coDangerMsg]
  else if co > CO_warning then [coWarningMsg]
  else []

def tempAlerts (temp : ℚ) : List String :=
  if temp > Temp_danger then [tempDangerMsg]
  else if temp > Temp_warning then [tempWarningMsg]
  else []

def humAlerts (hum : ℚ) : List String :=
  if hum < Humidity_danger_low then [humDangerLowMsg]
  else if hum < Humidity_warning_low then [humWarningLowMsg]
  else if hum > Humidity_danger_high then [humDangerHighMsg]
  else if hum > Humidity_warning_high then [humWarningHighMsg]
  else []

def get_detailed_alerts (row : Row) : List String :=
  let status := nh3Alerts row.1 ++ ch4Alerts row.2.1 ++ coAlerts row.2.2.1
      ++ tempAlerts row.2.2.2.1 ++ humAlerts row.2.2.2.2
  if status.isEmpty then [allClearMsg] else status

/-- Spec-side predicate: some dimension of the row crosses its *warning*
threshold (for humidity, either side).  Crossing a danger threshold always
implies crossing the corresponding warning threshold, so this is exactly
"the step is not within all warning thresholds". -/
def crossesWarning (row : Row) : Bool :=
  decide (row.1 > NH3_warning) || decide (row.2.1 > CH4_warning)
    || decide (row.2.2.1 > CO_warning) || decide (row.2.2.2.1 > Temp_warning)
    || decide (row.2.2.2.2 < Humidity_warning_low)
    || decide (row.2.2.2.2 > Humidity_warning_high)

example : get_detailed_alerts (0, 0, 0, 0, 50) = [allClearMsg] := by decide

example : get_detailed_alerts (60, 0, 0, 0, 50) = [nh3DangerMsg] := by decide

/-! ### `get_reticulum_summary` (main.py lines 151-202) -/

/-- Python's truthiness test `any(l)` on a list of strings: true iff some
element is a non-empty string. -/
def pyAny (l : List String) : Bool := l.any (fun s => !(s = ""))

/-- Python's `round(float(x), 2)`, modelled on rationals (round to the
nearest multiple of 1/100).  Python rounds ties to even on floats; no
property below depends on tie behavior. -/
def pyRound2 (q : ℚ) : ℚ := (round (q * 100) : ℤ) / 100

def pyRound2Row (r : Row) : Row :=
  (pyRound2 r.1, pyRound2 r.2.1, pyRound2 r.2.2.1, pyRound2 r.2.2.2.1,
    pyRound2 r.2.2.2.2)

/-- Python's `round(float(x), 3)` (used in the full `/predict` output). -/
def pyRound3 (q : ℚ) : ℚ := (round (q * 1000) : ℤ) / 1000

def pyRound3Row (r : Row) : Row :=
  (pyRound3 r.1, pyRound3 r.2.1, pyRound3 r.2.2.1, pyRound3 r.2.2.2.1,
    pyRound3 r.2.2.2.2)

/-- `predictions[start:end]` for one hour bucket: `start = h*6`,
`end = start + 6` (main.py lines 165-168). -/
def hourlyBucket (predictions : List Row) (h : Nat) : List Row :=
  (predictions.drop (h * 6)).take 6

/-- `np.mean(hour_preds, axis=0)`: the per-dimension arithmetic mean. -/
def rowMean (rows : List Row) : Row :=
  (((rows.map fun r => r.1).sum) / rows.length,
   ((rows.map fun r => r.2.1).sum) / rows.length,
   ((rows.map fun r => r.2.2.1).sum) / rows.length,
   ((rows.map fun r => r.2.2.2.1).sum) / rows.length,
   ((rows.map fun r => r.2.2.2.2).sum) / rows.length)

/-- The `for h in range(6)` aggregation loop (main.py lines 164-177),
before the per-field rounding applied when building the output dict. -/
def hourly_forecast (predictions : List Row) : List Row :=
  (List.range 6).map (fun h => rowMean (hourlyBucket predictions h))

/-- The overall-status loop (main.py lines 179-188): count the rows `row`
of `predictions` with `any(get_detailed_alerts(row))`, then compare the
count with 18 and 6. -/
def summaryStatus (predictions : List Row) : String :=
  let danger_count :=
    (predictions.filter (fun row => pyAny (get_detailed_alerts row))).length
  if danger_count > 18 then "Danger"
  else if danger_count > 6 then "Warning"
  else "Safe"

/-- The key-alerts computation (main.py lines 190-194, 201):
`all_alerts` extended with `get_detailed_alerts(row)` for every row, then
`list(set(all_alerts))[:3]`, then `key_alerts or ["✅ No hazards detected."]`.
CPython's `set` iteration order is unspecified; deduplication is modelled
with `List.dedup` (the theorems below only use inputs on which the
deduplicated set is a singleton, so no proved property depends on the
order). -/
def summaryAlerts (predictions : List Row) : List String :=
  let all_alerts := (predictions.map get_detailed_alerts).flatten
  let key_alerts := all_alerts.dedup.take 3
  if key_alerts.isEmpty then [noHazardsMsg] else key_alerts

/-- The summary document returned by `get_reticulum_summary`
(main.py lines 196-202).  `pd.Timestamp.now().isoformat()` is a side
effect, passed in as the `timestamp` argument. -/
structure ReticulumSummary where
  timestamp : String
  status : String
  current : Row
  forecast : List Row
  alerts : List String
deriving DecidableEq, Repr

def get_reticulum_summary (timestamp : String) (predictions : List Row)
    (current_row : Row) : ReticulumSummary :=
  { timestamp := timestamp
    status := summaryStatus predictions
    current := pyRound2Row current_row
    forecast := (hourly_forecast predictions).map pyRound2Row
    alerts := summaryAlerts predictions }

/-! ### Endpoint handlers (main.py lines 47-113)

Both `/predict` and `/export_reticulum` wrap their entire body in
`try: ... except Exception as e: return \x7b"error": str(e)\x7d`.  The
prediction pipeline (numpy stacking, scaler, Keras model) are external
artifacts; its outcome is passed in as an `Except`: `.ok (predictions,
current)` when the body computes a clamped 36×5 forecast with the last
input row, `.error msg` when any statement in the body raises an
`Exception` whose `str` is `msg`.  A FastAPI handler that returns a plain
dict yields a 200-level transport status; returning (rather than raising)
is modelled by the handler being a total function into `EndpointResp`. -/

inductive EndpointResp
  /-- the dict `\x7b"error": str(e)\x7d` -/
  | errorDoc (msg : String)
  /-- the full per-timestep output `\x7b"predictions": ...\x7d` -/
  | fullPredictions (steps : List (Row × List String))
  /-- a `get_reticulum_summary` document -/
  | summaryDoc (s : ReticulumSummary)
deriving DecidableEq, Repr

def predict_gas_levels (timestamp : String) (summary : Bool)
    (body : Except String (List Row × Row)) : EndpointResp :=
  match body with
  | .error e => .errorDoc e
  | .ok (predictions, current) =>
    if !summary then
      .fullPredictions
        (predictions.map (fun row => (pyRound3Row row, get_detailed_alerts row)))
    else
      .summaryDoc (get_reticulum_summary timestamp predictions current)

def export_to_reticulum (timestamp : String)
    (body : Except String (List Row × Row)) : EndpointResp :=
  match body with
  | .error e => .errorDoc e
  | .ok (predictions, current) =>
    .summaryDoc (get_reticulum_summary timestamp predictions current)

/-! ### Frame assembly (payload.py lines 74-97)

The inner `while True` read loop keeps three variables
(`data`, `json_started`, `brace_count`) and consumes one stripped line at
a time:

* an empty line is skipped (`continue`);
* a line starting with `"\x7b"` (re)starts the frame: `json_started = True`,
  `brace_count = 1`, `data = line`;
* otherwise, if a frame has started, the line is appended to `data` (no
  separator), `brace_count` is adjusted by the brace counts of the line,
  and if it reaches 0 the loop breaks, yielding `data` as the raw frame
  (the three variables are re-initialized at the top of the outer loop);
* lines before any frame start are discarded.

`feed` is one iteration of that loop: it returns the next state and
`some rawFrame` when the loop breaks. -/

structure AsmState where
  data : String
  json_started : Bool
  brace_count : Int
deriving DecidableEq, Repr

/-- The outer loop's re-initialization (payload.py lines 75-77). -/
def AsmState.init : AsmState := ⟨"", false, 0⟩

/-- `line.count("\x7b")` / `line.count("\x7d")` for a single-character
pattern: the number of occurrences of the character. -/
def countChar (s : String) (c : Char) : Nat := s.data.count c

/-- `line.startswith("\x7b")`. -/
def startsWithBrace (s : String) : Bool :=
  match s.data with
  | [] => false
  | c :: _ => c = '\x7b'

def feed (st : AsmState) (line : String) : AsmState × Option String :=
  if line.data.isEmpty then (st, none)
  else if startsWithBrace line then
    ({ data := line, json_started := true, brace_count := 1 }, none)
  else if st.json_started then
    let data := st.data ++ line
    let brace_count := st.brace_count + (countChar line '\x7b' : Int)
        - (countChar line '\x7d' : Int)
    if brace_count = 0 then (AsmState.init, some data)
    else ({ data := data, json_started := true, brace_count := brace_count }, none)
  else (st, none)

/-- `data.replace("'", '"')` (payload.py line 97): the pattern is a single
character, so the replacement is a character map. -/
def normalizeQuotes (s : String) : String :=
  String.mk (s.data.map (fun c => if c = '\x27' then '\x22' else c))

/-! ### A structural JSON reader, for stating what a raw frame parses to
(`json.loads`, payload.py line 101).  It covers the fragment the claims
exercise: non-negative integer numbers, double-quoted strings without
escapes, arrays and objects, with no surrounding whitespace. -/

inductive Json
  | num (n : Nat)
  | str (s : String)
  | arr (elems : List Json)
  | obj (fields : List (String × Json))

/-- Structural equality on `Json` documents. -/
def Json.beq : Json → Json → Bool
  | .num a, .num b => a == b
  | .str a, .str b => a == b
  | .arr a, .arr b => beqList a b
  | .obj a, .obj b => beqFields a b
  | _, _ => false
where
  beqList : List Json → List Json → Bool
    | [], [] => true
    | x :: xs, y :: ys => x.beq y && beqList xs ys
    | _, _ => false
  beqFields : List (String × Json) → List (String × Json) → Bool
    | [], [] => true
    | (k, v) :: xs, (l, w) :: ys => k == l && v.beq w && beqFields xs ys
    | _, _ => false

def parseNatAux (cs : List Char) (acc : Nat) : Nat × List Char :=
  match cs with
  | c :: rest =>
    if c.isDigit then parseNatAux rest (acc * 10 + (c.toNat - '0'.toNat))
    else (acc, cs)
  | [] => (acc, [])

/-- Reads the body of a double-quoted string (no escape support). -/
def parseStrAux (cs : List Char) (acc : List Char) :
    Option (String × List Char) :=
  match cs with
  | [] => none
  | c :: rest =>
    if c = '\x22' then some (String.mk acc.reverse, rest)
    else parseStrAux rest (c :: acc)

mutual

def parseVal (fuel : Nat) (cs : List Char) : Option (Json × List Char) :=
  match fuel with
  | 0 => none
  | fuel + 1 =>
    match cs with
    | [] => none
    | c :: rest =>
      if c = '\x22' then
        match parseStrAux rest [] with
        | some (s, rest) => some (.str s, rest)
        | none => none
      else if c = '[' then
        match rest with
        | ']' :: rest => some (.arr [], rest)
        | _ =>
          match parseElems fuel rest with
          | some (xs, ']' :: rest) => some (.arr xs, rest)
          | _ => none
      else if c = '\x7b' then
        match rest with
        | '\x7d' :: rest => some (.obj [], rest)
        | _ =>
          match parseFields fuel rest with
          | some (kvs, '\x7d' :: rest) => some (.obj kvs, rest)
          | _ => none
      else if c.isDigit then
        let (n, rest) := parseNatAux cs 0
        some (.num n, rest)
      else none

def parseElems (fuel : Nat) (cs : List Char) :
    Option (List Json × List Char) :=
  match fuel with
  | 0 => none
  | fuel + 1 =>
    match parseVal fuel cs with
    | none => none
    | some (x, rest) =>
      match rest with
      | ',' :: rest =>
        match parseElems fuel rest with
        | some (xs, rest) => some (x :: xs, rest)
        | none => none
      | _ => some ([x], rest)

def parseFields (fuel : Nat) (cs : List Char) :
    Option (List (String × Json) × List Char) :=
  match fuel with
  | 0 => none
  | fuel + 1 =>
    match cs with
    | '\x22' :: rest =>
      match parseStrAux rest [] with
      | none => none
      | some (k, rest) =>
        match rest with
        | ':' :: rest =>
          match parseVal fuel rest with
          | none => none
          | some (v, rest) =>
            match rest with
            | ',' :: rest =>
              match parseFields fuel rest with
              | some (kvs, rest) => some ((k, v) :: kvs, rest)
              | none => none
            | _ => some ([(k, v)], rest)
        | _ => none
    | _ => none

end

/-- `json.loads` restricted to the fragment above: the whole input must be
consumed. -/
def jsonParse (s : String) : Option Json :=
  match parseVal (s.length + 1) s.data with
  | some (v, []) => some v
  | _ => none

/-! ### One ingestion cycle (payload.py lines 100-166)

After a raw frame is assembled, the body of the outer `while True` loop
runs inside `try: ... except json.JSONDecodeError: ... continue`.  The
enclosing `try` (payload.py lines 67-171) catches only
`serial.SerialException` and `KeyboardInterrupt` around the *whole* loop,
so any other exception escaping the inner `try` exits the read loop and,
after the `finally` block closes the port, ends the process.

The statements of the body that can raise are modelled as `Except`-valued
inputs (the outcome each external effect would have if reached), in
source order:

1. `json.loads(data)` — raises `json.JSONDecodeError` on bad input;
2. `df.to_csv(csv_filename)` — can raise `OSError`; *no handler*;
3. `requests.post(.../predict)` — can raise
   `requests.exceptions.ConnectionError` / `Timeout`; returns a status
   code which is only logged (a non-200 does not change control flow);
4. `requests.post(.../export_reticulum)` — same exceptions; a non-200
   status runs `continue` (skipping the rest of the cycle);
5. `open(summary_filename, "w")` / `json.dump` — can raise `OSError`;
   *no handler*;
6. `send_meshchat_alert` — its body catches `ConnectionError` and
   `Exception` internally, so it never propagates an exception.
-/

inductive PyExn
  | jsonDecodeError
  | requestsConnectionError
  | requestsTimeout
  | osError
deriving DecidableEq, Repr

/-- Outcomes of the effectful statements of one cycle, had each been
reached.  Status codes stand for the HTTP result of a call that returned
without raising. -/
structure CycleEffects where
  loadsResult : Except PyExn Unit
  csvWriteResult : Except PyExn Unit
  predictResult : Except PyExn Nat
  exportResult : Except PyExn Nat
  summaryWriteResult : Except PyExn Unit
deriving Repr

/-- Stages of the cycle body, in source order. -/
inductive Stage
  | parseJson
  | csvExport
  | predictCall
  | exportCall
  | summaryWrite
  | dispatch
deriving DecidableEq, Repr

/-- How one cycle ends, as seen by the outer read loop. -/
inductive CycleResult
  /-- the body ran to the end (dispatch attempted); the loop continues -/
  | completed
  /-- a `continue` ran (caught `json.JSONDecodeError`, or a non-200
  `/export_reticulum` status); the loop continues -/
  | skipped
  /-- an exception escaped the inner `try`; the read loop terminates and
  the process ends -/
  | raised (e : PyExn)
deriving DecidableEq, Repr

/-- What the inner `except json.JSONDecodeError` handler does with an
exception raised anywhere in the body: only `json.JSONDecodeError` is
caught (then `continue`); everything else propagates. -/
def handleCycleExn (e : PyExn) : CycleResult :=
  if e = PyExn.jsonDecodeError then .skipped else .raised e

/-- One iteration of the outer loop after frame assembly: the result, and
the stages the body reached. -/
def runCycle (eff : CycleEffects) : CycleResult × List Stage :=
  match eff.loadsResult with
  | .error e => (handleCycleExn e, [.parseJson])
  | .ok _ =>
    match eff.csvWriteResult with
    | .error e => (handleCycleExn e, [.parseJson, .csvExport])
    | .ok _ =>
      match eff.predictResult with
      | .error e => (handleCycleExn e, [.parseJson, .csvExport, .predictCall])
      | .ok _predictStatus =>
        match eff.exportResult with
        | .error e =>
          (handleCycleExn e, [.parseJson, .csvExport, .predictCall, .exportCall])
        | .ok exportStatus =>
          if exportStatus ≠ 200 then
            (.skipped, [.parseJson, .csvExport, .predictCall, .exportCall])
          else
            match eff.summaryWriteResult with
            | .error e =>
              (handleCycleExn e,
                [.parseJson, .csvExport, .predictCall, .exportCall, .summaryWrite])
            | .ok _ =>
              (.completed,
                [.parseJson, .csvExport, .predictCall, .exportCall,
                  .summaryWrite, .dispatch])

/-- All effects succeed with status 200. -/
def allOkEffects : CycleEffects :=
  { loadsResult := .ok ()
    csvWriteResult := .ok ()
    predictResult := .ok 200
    exportResult := .ok 200
    summaryWriteResult := .ok () }

/-! ## Helper lemmas about the per-dimension alert blocks -/

lemma nh3Alerts_eq_nil {v : ℚ} (h : ¬ v > NH3_warning) : nh3Alerts v = [] := by
  unfold nh3Alerts
  rw [if_neg (by unfold NH3_danger; unfold NH3_warning at h; intro hc; exact h (by linarith)),
    if_neg h]

lemma nh3Alerts_ne_nil {v : ℚ} (h : v > NH3_warning) : nh3Alerts v ≠ [] := by
  unfold nh3Alerts
  split_ifs <;> simp_all

lemma ch4Alerts_eq_nil {v : ℚ} (h : ¬ v > CH4_warning) : ch4Alerts v = [] := by
  unfold ch4Alerts
  rw [if_neg (by unfold CH4_danger; unfold CH4_warning at h; intro hc; exact h (by linarith)),
    if_neg h]

lemma ch4Alerts_ne_nil {v : ℚ} (h : v > CH4_warning) : ch4Alerts v ≠ [] := by
  unfold ch4Alerts
  split_ifs <;> simp_all

lemma coAlerts_eq_nil {v : ℚ} (h : ¬ v > CO_warning) : coAlerts v = [] := by
  unfold coAlerts
  rw [if_neg (by unfold CO_danger; unfold CO_warning at h; intro hc; exact h (by linarith)),
    if_neg h]

lemma coAlerts_ne_nil {v : ℚ} (h : v > CO_warning) : coAlerts v ≠ [] := by
  unfold coAlerts
  split_ifs <;> simp_all

lemma tempAlerts_eq_nil {v : ℚ} (h : ¬ v > Temp_warning) : tempAlerts v = [] := by
  unfold tempAlerts
  rw [if_neg (by unfold Temp_danger; unfold Temp_warning at h; intro hc; exact h (by linarith)),
    if_neg h]

lemma tempAlerts_ne_nil {v : ℚ} (h : v > Temp_warning) : tempAlerts v ≠ [] := by
  unfold tempAlerts
  split_ifs <;> simp_all

lemma humAlerts_eq_nil {v : ℚ} (h1 : ¬ v < Humidity_warning_low)
    (h2 : ¬ v > Humidity_warning_high) : humAlerts v = [] := by
  unfold humAlerts
  rw [if_neg (by
      unfold Humidity_danger_low
      unfold Humidity_warning_low at h1
      intro hc; exact h1 (by linarith)),
    if_neg h1,
    if_neg (by
      unfold Humidity_danger_high
      unfold Humidity_warning_high at h2
      intro hc; exact h2 (by linarith)),
    if_neg h2]

lemma humAlerts_ne_nil {v : ℚ}
    (h : v < Humidity_warning_low ∨ v > Humidity_warning_high) :
    humAlerts v ≠ [] := by
  unfold humAlerts
  split_ifs with h1 h2 h3 h4
  · simp
  · simp
  · simp
  · simp
  · rcases h with h | h
    · exact absurd h h2
    · exact absurd h h4

lemma mem_nh3Alerts {v : ℚ} {l : String} (h : l ∈ nh3Alerts v) :
    l = nh3DangerMsg ∨ l = nh3WarningMsg := by
  unfold nh3Alerts at h
  split_ifs at h <;> simp_all

lemma mem_ch4Alerts {v : ℚ} {l : String} (h : l ∈ ch4Alerts v) :
    l = ch4DangerMsg ∨ l = ch4WarningMsg := by
  unfold ch4Alerts at h
  split_ifs at h <;> simp_all

lemma mem_coAlerts {v : ℚ} {l : String} (h : l ∈ coAlerts v) :
    l = coDangerMsg ∨ l = coWarningMsg := by
  unfold coAlerts at h
  split_ifs at h <;> simp_all

lemma mem_tempAlerts {v : ℚ} {l : String} (h : l ∈ tempAlerts v) :
    l = tempDangerMsg ∨ l = tempWarningMsg := by
  unfold tempAlerts at h
  split_ifs at h <;> simp_all

lemma mem_humAlerts {v : ℚ} {l : String} (h : l ∈ humAlerts v) :
    l = humDangerLowMsg ∨ l = humWarningLowMsg ∨ l = humDangerHighMsg
      ∨ l = humWarningHighMsg := by
  unfold humAlerts at h
  split_ifs at h <;> simp_all

/-- Any member of the pre-fallback alert block list is one of the twelve
threshold labels (in particular, never the all-clear marker). -/
lemma mem_alertBlocks {row : Row} {l : String}
    (h : l ∈ nh3Alerts row.1 ++ ch4Alerts row.2.1 ++ coAlerts row.2.2.1
      ++ tempAlerts row.2.2.2.1 ++ humAlerts row.2.2.2.2) :
    l ∈ [nh3DangerMsg, nh3WarningMsg, ch4DangerMsg, ch4WarningMsg,
      coDangerMsg, coWarningMsg, tempDangerMsg, tempWarningMsg,
      humDangerLowMsg, humWarningLowMsg, humDangerHighMsg, humWarningHighMsg] := by
  simp only [List.mem_append] at h
  rcases h with ((((h | h) | h) | h) | h)
  · rcases mem_nh3Alerts h with h | h <;> simp [h]
  · rcases mem_ch4Alerts h with h | h <;> simp [h]
  · rcases mem_coAlerts h with h | h <;> simp [h]
  · rcases mem_tempAlerts h with h | h <;> simp [h]
  · rcases mem_humAlerts h with h | h | h | h <;> simp [h]

lemma allClearMsg_not_mem_alertBlocks {row : Row} :
    allClearMsg ∉ nh3Alerts row.1 ++ ch4Alerts row.2.1 ++ coAlerts row.2.2.1
      ++ tempAlerts row.2.2.2.1 ++ humAlerts row.2.2.2.2 := by
  intro h
  have := mem_alertBlocks h
  revert this
  decide

/-- The pre-fallback block list is empty exactly when no warning threshold
is crossed. -/
lemma alertBlocks_eq_nil_iff (row : Row) :
    nh3Alerts row.1 ++ ch4Alerts row.2.1 ++ coAlerts row.2.2.1
      ++ tempAlerts row.2.2.2.1 ++ humAlerts row.2.2.2.2 = []
      ↔ crossesWarning row = false := by
  constructor
  · intro h
    simp only [List.append_eq_nil] at h
    obtain ⟨⟨⟨⟨h1, h2⟩, h3⟩, h4⟩, h5⟩ := h
    simp only [crossesWarning, Bool.or_eq_false_iff, decide_eq_false_iff_not]
    refine ⟨⟨⟨⟨⟨?_, ?_⟩, ?_⟩, ?_⟩, ?_⟩, ?_⟩
    · exact fun hc => nh3Alerts_ne_nil hc h1
    · exact fun hc => ch4Alerts_ne_nil hc h2
    · exact fun hc => coAlerts_ne_nil hc h3
    · exact fun hc => tempAlerts_ne_nil hc h4
    · exact fun hc => humAlerts_ne_nil (Or.inl hc) h5
    · exact fun hc => humAlerts_ne_nil (Or.inr hc) h5
  · intro h
    simp only [crossesWarning, Bool.or_eq_false_iff, decide_eq_false_iff_not] at h
    obtain ⟨⟨⟨⟨⟨a, b⟩, c⟩, d⟩, e⟩, f⟩ := h
    rw [nh3Alerts_eq_nil a, ch4Alerts_eq_nil b, coAlerts_eq_nil c,
      tempAlerts_eq_nil d, humAlerts_eq_nil e f]
    rfl

/-- C6: for every forecast step, `classify_step` (`get_detailed_alerts`)
never returns an empty list: when no dimension crosses its warning
threshold it returns exactly the single all-clear marker, and otherwise a
non-empty list that does not contain the all-clear marker. -/
theorem classify_step_never_empty (row : Row) :
    get_detailed_alerts row ≠ []
      ∧ (crossesWarning row = false → get_detailed_alerts row = [allClearMsg])
      ∧ (crossesWarning row = true →
          get_detailed_alerts row ≠ [] ∧ allClearMsg ∉ get_detailed_alerts row) := by
  have hiff := alertBlocks_eq_nil_iff row
  simp only [get_detailed_alerts]
  by_cases hL : nh3Alerts row.1 ++ ch4Alerts row.2.1 ++ coAlerts row.2.2.1
      ++ tempAlerts row.2.2.2.1 ++ humAlerts row.2.2.2.2 = []
  · rw [hL]
    refine ⟨by simp, fun _ => by simp, fun hcw => ?_⟩
    rw [hiff.mp hL] at hcw
    exact absurd hcw (by simp)
  · rw [if_neg (by simpa using hL)]
    exact ⟨hL, fun hcw => absurd (hiff.mpr hcw) hL,
      fun _ => ⟨hL, allClearMsg_not_mem_alertBlocks⟩⟩

/-- Witness for `classify_step_never_empty`: a step within all thresholds
yields the all-clear marker; a step with NH3 above the danger threshold
yields a non-empty list without the all-clear marker. -/
theorem classify_step_never_empty_witness :
    get_detailed_alerts (0, 0, 0, 0, 50) = [allClearMsg]
      ∧ (get_detailed_alerts (60, 0, 0, 0, 50) ≠ []
          ∧ allClearMsg ∉ get_detailed_alerts (60, 0, 0, 0, 50)) :=
  ⟨(classify_step_never_empty (0, 0, 0, 0, 50)).2.1 (by decide),
    (classify_step_never_empty (60, 0, 0, 0, 50)).2.2 (by decide)⟩

/-! ## Branch characterizations of the per-dimension cascades -/

lemma nh3Alerts_danger {v : ℚ} (h : v > NH3_danger) :
    nh3Alerts v = [nh3DangerMsg] := by
  unfold nh3Alerts
  rw [if_pos h]

lemma ch4Alerts_danger {v : ℚ} (h : v > CH4_danger) :
    ch4Alerts v = [ch4DangerMsg] := by
  unfold ch4Alerts
  rw [if_pos h]

lemma coAlerts_danger {v : ℚ} (h : v > CO_danger) :
    coAlerts v = [coDangerMsg] := by
  unfold coAlerts
  rw [if_pos h]

lemma tempAlerts_danger {v : ℚ} (h : v > Temp_danger) :
    tempAlerts v = [tempDangerMsg] := by
  unfold tempAlerts
  rw [if_pos h]

lemma humAlerts_dangerLow {v : ℚ} (h : v < Humidity_danger_low) :
    humAlerts v = [humDangerLowMsg] := by
  unfold humAlerts
  rw [if_pos h]

lemma humAlerts_warningLow {v : ℚ} (h1 : ¬ v < Humidity_danger_low)
    (h : v < Humidity_warning_low) : humAlerts v = [humWarningLowMsg] := by
  unfold humAlerts
  rw [if_neg h1, if_pos h]

lemma humAlerts_dangerHigh {v : ℚ} (h1 : ¬ v < Humidity_danger_low)
    (h2 : ¬ v < Humidity_warning_low) (h : v > Humidity_danger_high) :
    humAlerts v = [humDangerHighMsg] := by
  unfold humAlerts
  rw [if_neg h1, if_neg h2, if_pos h]

lemma humAlerts_warningHigh {v : ℚ} (h1 : ¬ v < Humidity_danger_low)
    (h2 : ¬ v < Humidity_warning_low) (h3 : ¬ v > Humidity_danger_high)
    (h : v > Humidity_warning_high) : humAlerts v = [humWarningHighMsg] := by
  unfold humAlerts
  rw [if_neg h1, if_neg h2, if_neg h3, if_pos h]

/-! ## Label counting in the block list -/

lemma count_blocks (row : Row) (l : String) :
    (nh3Alerts row.1 ++ ch4Alerts row.2.1 ++ coAlerts row.2.2.1
      ++ tempAlerts row.2.2.2.1 ++ humAlerts row.2.2.2.2).count l
    = (nh3Alerts row.1).count l + (ch4Alerts row.2.1).count l
      + (coAlerts row.2.2.1).count l + (tempAlerts row.2.2.2.1).count l
      + (humAlerts row.2.2.2.2).count l := by
  simp [List.count_append]
  omega

lemma count_nh3_label (row : Row) {l : String}
    (hl : l = nh3DangerMsg ∨ l = nh3WarningMsg) :
    (nh3Alerts row.1 ++ ch4Alerts row.2.1 ++ coAlerts row.2.2.1
      ++ tempAlerts row.2.2.2.1 ++ humAlerts row.2.2.2.2).count l
      = (nh3Alerts row.1).count l := by
  rw [count_blocks]
  have h2 : (ch4Alerts row.2.1).count l = 0 := by
    rw [List.count_eq_zero]
    intro hm
    rcases hl with rfl | rfl <;> rcases mem_ch4Alerts hm with h | h <;>
      exact absurd h (by decide)
  have h3 : (coAlerts row.2.2.1).count l = 0 := by
    rw [List.count_eq_zero]
    intro hm
    rcases hl with rfl | rfl <;> rcases mem_coAlerts hm with h | h <;>
      exact absurd h (by decide)
  have h4 : (tempAlerts row.2.2.2.1).count l = 0 := by
    rw [List.count_eq_zero]
    intro hm
    rcases hl with rfl | rfl <;> rcases mem_tempAlerts hm with h | h <;>
      exact absurd h (by decide)
  have h5 : (humAlerts row.2.2.2.2).count l = 0 := by
    rw [List.count_eq_zero]
    intro hm
    rcases hl with rfl | rfl <;> rcases mem_humAlerts hm with h | h | h | h <;>
      exact absurd h (by decide)
  omega

lemma count_ch4_label (row : Row) {l : String}
    (hl : l = ch4DangerMsg ∨ l = ch4WarningMsg) :
    (nh3Alerts row.1 ++ ch4Alerts row.2.1 ++ coAlerts row.2.2.1
      ++ tempAlerts row.2.2.2.1 ++ humAlerts row.2.2.2.2).count l
      = (ch4Alerts row.2.1).count l := by
  rw [count_blocks]
  have h1 : (nh3Alerts row.1).count l = 0 := by
    rw [List.count_eq_zero]
    intro hm
    rcases hl with rfl | rfl <;> rcases mem_nh3Alerts hm with h | h <;>
      exact absurd h (by decide)
  have h3 : (coAlerts row.2.2.1).count l = 0 := by
    rw [List.count_eq_zero]
    intro hm
    rcases hl with rfl | rfl <;> rcases mem_coAlerts hm with h | h <;>
      exact absurd h (by decide)
  have h4 : (tempAlerts row.2.2.2.1).count l = 0 := by
    rw [List.count_eq_zero]
    intro hm
    rcases hl with rfl | rfl <;> rcases mem_tempAlerts hm with h | h <;>
      exact absurd h (by decide)
  have h5 : (humAlerts row.2.2.2.2).count l = 0 := by
    rw [List.count_eq_zero]
    intro hm
    rcases hl with rfl | rfl <;> rcases mem_humAlerts hm with h | h | h | h <;>
      exact absurd h (by decide)
  omega

lemma count_co_label (row : Row) {l : String}
    (hl : l = coDangerMsg ∨ l = coWarningMsg) :
    (nh3Alerts row.1 ++ ch4Alerts row.2.1 ++ coAlerts row.2.2.1
      ++ tempAlerts row.2.2.2.1 ++ humAlerts row.2.2.2.2).count l
      = (coAlerts row.2.2.1).count l := by
  rw [count_blocks]
  have h1 : (nh3Alerts row.1).count l = 0 := by
    rw [List.count_eq_zero]
    intro hm
    rcases hl with rfl | rfl <;> rcases mem_nh3Alerts hm with h | h <;>
      exact absurd h (by decide)
  have h2 : (ch4Alerts row.2.1).count l = 0 := by
    rw [List.count_eq_zero]
    intro hm
    rcases hl with rfl | rfl <;> rcases mem_ch4Alerts hm with h | h <;>
      exact absurd h (by decide)
  have h4 : (tempAlerts row.2.2.2.1).count l = 0 := by
    rw [List.count_eq_zero]
    intro hm
    rcases hl with rfl | rfl <;> rcases mem_tempAlerts hm with h | h <;>
      exact absurd h (by decide)
  have h5 : (humAlerts row.2.2.2.2).count l = 0 := by
    rw [List.count_eq_zero]
    intro hm
    rcases hl with rfl | rfl <;> rcases mem_humAlerts hm with h | h | h | h <;>
      exact absurd h (by decide)
  omega

lemma count_temp_label (row : Row) {l : String}
    (hl : l = tempDangerMsg ∨ l = tempWarningMsg) :
    (nh3Alerts row.1 ++ ch4Alerts row.2.1 ++ coAlerts row.2.2.1
      ++ tempAlerts row.2.2.2.1 ++ humAlerts row.2.2.2.2).count l
      = (tempAlerts row.2.2.2.1).count l := by
  rw [count_blocks]
  have h1 : (nh3Alerts row.1).count l = 0 := by
    rw [List.count_eq_zero]
    intro hm
    rcases hl with rfl | rfl <;> rcases mem_nh3Alerts hm with h | h <;>
      exact absurd h (by decide)
  have h2 : (ch4Alerts row.2.1).count l = 0 := by
    rw [List.count_eq_zero]
    intro hm
    rcases hl with rfl | rfl <;> rcases mem_ch4Alerts hm with h | h <;>
      exact absurd h (by decide)
  have h3 : (coAlerts row.2.2.1).count l = 0 := by
    rw [List.count_eq_zero]
    intro hm
    rcases hl with rfl | rfl <;> rcases mem_coAlerts hm with h | h <;>
      exact absurd h (by decide)
  have h5 : (humAlerts row.2.2.2.2).count l = 0 := by
    rw [List.count_eq_zero]
    intro hm
    rcases hl with rfl | rfl <;> rcases mem_humAlerts hm with h | h | h | h <;>
      exact absurd h (by decide)
  omega

lemma count_hum_label (row : Row) {l : String}
    (hl : l = humDangerLowMsg ∨ l = humWarningLowMsg ∨ l = humDangerHighMsg
      ∨ l = humWarningHighMsg) :
    (nh3Alerts row.1 ++ ch4Alerts row.2.1 ++ coAlerts row.2.2.1
      ++ tempAlerts row.2.2.2.1 ++ humAlerts row.2.2.2.2).count l
      = (humAlerts row.2.2.2.2).count l := by
  rw [count_blocks]
  have h1 : (nh3Alerts row.1).count l = 0 := by
    rw [List.count_eq_zero]
    intro hm
    rcases hl with rfl | rfl | rfl | rfl <;> rcases mem_nh3Alerts hm with h | h <;>
      exact absurd h (by decide)
  have h2 : (ch4Alerts row.2.1).count l = 0 := by
    rw [List.count_eq_zero]
    intro hm
    rcases hl with rfl | rfl | rfl | rfl <;> rcases mem_ch4Alerts hm with h | h <;>
      exact absurd h (by decide)
  have h3 : (coAlerts row.2.2.1).count l = 0 := by
    rw [List.count_eq_zero]
    intro hm
    rcases hl with rfl | rfl | rfl | rfl <;> rcases mem_coAlerts hm with h | h <;>
      exact absurd h (by decide)
  have h4 : (tempAlerts row.2.2.2.1).count l = 0 := by
    rw [List.count_eq_zero]
    intro hm
    rcases hl with rfl | rfl | rfl | rfl <;> rcases mem_tempAlerts hm with h | h <;>
      exact absurd h (by decide)
  omega

lemma nh3Alerts_self_count (v : ℚ) :
    (nh3Alerts v).count nh3DangerMsg + (nh3Alerts v).count nh3WarningMsg ≤ 1 := by
  unfold nh3Alerts
  split_ifs <;> decide

lemma ch4Alerts_self_count (v : ℚ) :
    (ch4Alerts v).count ch4DangerMsg + (ch4Alerts v).count ch4WarningMsg ≤ 1 := by
  unfold ch4Alerts
  split_ifs <;> decide

lemma coAlerts_self_count (v : ℚ) :
    (coAlerts v).count coDangerMsg + (coAlerts v).count coWarningMsg ≤ 1 := by
  unfold coAlerts
  split_ifs <;> decide

lemma tempAlerts_self_count (v : ℚ) :
    (tempAlerts v).count tempDangerMsg + (tempAlerts v).count tempWarningMsg ≤ 1 := by
  unfold tempAlerts
  split_ifs <;> decide

lemma humAlerts_self_count (v : ℚ) :
    (humAlerts v).count humDangerLowMsg + (humAlerts v).count humWarningLowMsg
      + (humAlerts v).count humDangerHighMsg
      + (humAlerts v).count humWarningHighMsg ≤ 1 := by
  unfold humAlerts
  split_ifs <;> decide

lemma mem_blocks_of_nh3 {row : Row} {a : String} (h : a ∈ nh3Alerts row.1) :
    a ∈ nh3Alerts row.1 ++ ch4Alerts row.2.1 ++ coAlerts row.2.2.1
      ++ tempAlerts row.2.2.2.1 ++ humAlerts row.2.2.2.2 := by
  simp only [List.mem_append]
  tauto

lemma mem_blocks_of_ch4 {row : Row} {a : String} (h : a ∈ ch4Alerts row.2.1) :
    a ∈ nh3Alerts row.1 ++ ch4Alerts row.2.1 ++ coAlerts row.2.2.1
      ++ tempAlerts row.2.2.2.1 ++ humAlerts row.2.2.2.2 := by
  simp only [List.mem_append]
  tauto

lemma mem_blocks_of_co {row : Row} {a : String} (h : a ∈ coAlerts row.2.2.1) :
    a ∈ nh3Alerts row.1 ++ ch4Alerts row.2.1 ++ coAlerts row.2.2.1
      ++ tempAlerts row.2.2.2.1 ++ humAlerts row.2.2.2.2 := by
  simp only [List.mem_append]
  tauto

lemma mem_blocks_of_temp {row : Row} {a : String} (h : a ∈ tempAlerts row.2.2.2.1) :
    a ∈ nh3Alerts row.1 ++ ch4Alerts row.2.1 ++ coAlerts row.2.2.1
      ++ tempAlerts row.2.2.2.1 ++ humAlerts row.2.2.2.2 := by
  simp only [List.mem_append]
  tauto

lemma mem_blocks_of_hum {row : Row} {a : String} (h : a ∈ humAlerts row.2.2.2.2) :
    a ∈ nh3Alerts row.1 ++ ch4Alerts row.2.1 ++ coAlerts row.2.2.1
      ++ tempAlerts row.2.2.2.1 ++ humAlerts row.2.2.2.2 := by
  simp only [List.mem_append]
  tauto

/-- C7: each dimension contributes at most one label to the result of
`get_detailed_alerts`; a danger-level crossing puts the danger label in
the result and excludes the warning label of the same dimension; humidity
is checked danger-low, warning-low, danger-high, warning-high, in that
order, short-circuiting on the first match. -/
theorem classify_step_dimension_discipline (row : Row) :
    ((get_detailed_alerts row).count nh3DangerMsg
        + (get_detailed_alerts row).count nh3WarningMsg ≤ 1)
    ∧ ((get_detailed_alerts row).count ch4DangerMsg
        + (get_detailed_alerts row).count ch4WarningMsg ≤ 1)
    ∧ ((get_detailed_alerts row).count coDangerMsg
        + (get_detailed_alerts row).count coWarningMsg ≤ 1)
    ∧ ((get_detailed_alerts row).count tempDangerMsg
        + (get_detailed_alerts row).count tempWarningMsg ≤ 1)
    ∧ ((get_detailed_alerts row).count humDangerLowMsg
        + (get_detailed_alerts row).count humWarningLowMsg
        + (get_detailed_alerts row).count humDangerHighMsg
        + (get_detailed_alerts row).count humWarningHighMsg ≤ 1)
    ∧ (row.1 > NH3_danger → nh3DangerMsg ∈ get_detailed_alerts row
        ∧ nh3WarningMsg ∉ get_detailed_alerts row)
    ∧ (row.2.1 > CH4_danger → ch4DangerMsg ∈ get_detailed_alerts row
        ∧ ch4WarningMsg ∉ get_detailed_alerts row)
    ∧ (row.2.2.1 > CO_danger → coDangerMsg ∈ get_detailed_alerts row
        ∧ coWarningMsg ∉ get_detailed_alerts row)
    ∧ (row.2.2.2.1 > Temp_danger → tempDangerMsg ∈ get_detailed_alerts row
        ∧ tempWarningMsg ∉ get_detailed_alerts row)
    ∧ (row.2.2.2.2 < Humidity_danger_low →
        humDangerLowMsg ∈ get_detailed_alerts row
        ∧ humWarningLowMsg ∉ get_detailed_alerts row
        ∧ humDangerHighMsg ∉ get_detailed_alerts row
        ∧ humWarningHighMsg ∉ get_detailed_alerts row)
    ∧ (¬ row.2.2.2.2 < Humidity_danger_low →
        row.2.2.2.2 < Humidity_warning_low →
        humWarningLowMsg ∈ get_detailed_alerts row
        ∧ humDangerLowMsg ∉ get_detailed_alerts row
        ∧ humDangerHighMsg ∉ get_detailed_alerts row
        ∧ humWarningHighMsg ∉ get_detailed_alerts row)
    ∧ (¬ row.2.2.2.2 < Humidity_danger_low →
        ¬ row.2.2.2.2 < Humidity_warning_low →
        row.2.2.2.2 > Humidity_danger_high →
        humDangerHighMsg ∈ get_detailed_alerts row
        ∧ humDangerLowMsg ∉ get_detailed_alerts row
        ∧ humWarningLowMsg ∉ get_detailed_alerts row
        ∧ humWarningHighMsg ∉ get_detailed_alerts row)
    ∧ (¬ row.2.2.2.2 < Humidity_danger_low →
        ¬ row.2.2.2.2 < Humidity_warning_low →
        ¬ row.2.2.2.2 > Humidity_danger_high →
        row.2.2.2.2 > Humidity_warning_high →
        humWarningHighMsg ∈ get_detailed_alerts row
        ∧ humDangerLowMsg ∉ get_detailed_alerts row
        ∧ humWarningLowMsg ∉ get_detailed_alerts row
        ∧ humDangerHighMsg ∉ get_detailed_alerts row) := by
  simp only [get_detailed_alerts]
  by_cases hL : nh3Alerts row.1 ++ ch4Alerts row.2.1 ++ coAlerts row.2.2.1
      ++ tempAlerts row.2.2.2.1 ++ humAlerts row.2.2.2.2 = []
  · rw [hL]
    simp only [List.isEmpty_nil, if_true]
    simp only [List.append_eq_nil] at hL
    obtain ⟨⟨⟨⟨e1, e2⟩, e3⟩, e4⟩, e5⟩ := hL
    refine ⟨by decide, by decide, by decide, by decide, by decide,
      ?_, ?_, ?_, ?_, ?_, ?_, ?_, ?_⟩
    · intro h
      exact absurd e1 (nh3Alerts_ne_nil (by
        unfold NH3_danger at h; unfold NH3_warning; linarith))
    · intro h
      exact absurd e2 (ch4Alerts_ne_nil (by
        unfold CH4_danger at h; unfold CH4_warning; linarith))
    · intro h
      exact absurd e3 (coAlerts_ne_nil (by
        unfold CO_danger at h; unfold CO_warning; linarith))
    · intro h
      exact absurd e4 (tempAlerts_ne_nil (by
        unfold Temp_danger at h; unfold Temp_warning; linarith))
    · intro h
      exact absurd e5 (humAlerts_ne_nil (Or.inl (by
        unfold Humidity_danger_low at h; unfold Humidity_warning_low; linarith)))
    · intro _ h
      exact absurd e5 (humAlerts_ne_nil (Or.inl h))
    · intro _ _ h
      exact absurd e5 (humAlerts_ne_nil (Or.inr (by
        unfold Humidity_danger_high at h; unfold Humidity_warning_high; linarith)))
    · intro _ _ _ h
      exact absurd e5 (humAlerts_ne_nil (Or.inr h))
  · rw [if_neg (by simpa using hL)]
    refine ⟨?_, ?_, ?_, ?_, ?_, ?_, ?_, ?_, ?_, ?_, ?_, ?_, ?_⟩
    · rw [count_nh3_label row (Or.inl rfl), count_nh3_label row (Or.inr rfl)]
      exact nh3Alerts_self_count _
    · rw [count_ch4_label row (Or.inl rfl), count_ch4_label row (Or.inr rfl)]
      exact ch4Alerts_self_count _
    · rw [count_co_label row (Or.inl rfl), count_co_label row (Or.inr rfl)]
      exact coAlerts_self_count _
    · rw [count_temp_label row (Or.inl rfl), count_temp_label row (Or.inr rfl)]
      exact tempAlerts_self_count _
    · rw [count_hum_label row (Or.inl rfl),
        count_hum_label row (Or.inr (Or.inl rfl)),
        count_hum_label row (Or.inr (Or.inr (Or.inl rfl))),
        count_hum_label row (Or.inr (Or.inr (Or.inr rfl)))]
      exact humAlerts_self_count _
    · intro h
      have hd := nh3Alerts_danger h
      refine ⟨mem_blocks_of_nh3 (by rw [hd]; exact List.mem_singleton_self _), ?_⟩
      rw [← List.count_eq_zero, count_nh3_label row (Or.inr rfl), hd]
      decide
    · intro h
      have hd := ch4Alerts_danger h
      refine ⟨mem_blocks_of_ch4 (by rw [hd]; exact List.mem_singleton_self _), ?_⟩
      rw [← List.count_eq_zero, count_ch4_label row (Or.inr rfl), hd]
      decide
    · intro h
      have hd := coAlerts_danger h
      refine ⟨mem_blocks_of_co (by rw [hd]; exact List.mem_singleton_self _), ?_⟩
      rw [← List.count_eq_zero, count_co_label row (Or.inr rfl), hd]
      decide
    · intro h
      have hd := tempAlerts_danger h
      refine ⟨mem_blocks_of_temp (by rw [hd]; exact List.mem_singleton_self _), ?_⟩
      rw [← List.count_eq_zero, count_temp_label row (Or.inr rfl), hd]
      decide
    · intro h
      have hd := humAlerts_dangerLow h
      refine ⟨mem_blocks_of_hum (by rw [hd]; exact List.mem_singleton_self _),
        ?_, ?_, ?_⟩
      · rw [← List.count_eq_zero, count_hum_label row (Or.inr (Or.inl rfl)), hd]
        decide
      · rw [← List.count_eq_zero, count_hum_label row (Or.inr (Or.inr (Or.inl rfl))), hd]
        decide
      · rw [← List.count_eq_zero, count_hum_label row (Or.inr (Or.inr (Or.inr rfl))), hd]
        decide
    · intro h1 h
      have hd := humAlerts_warningLow h1 h
      refine ⟨mem_blocks_of_hum (by rw [hd]; exact List.mem_singleton_self _),
        ?_, ?_, ?_⟩
      · rw [← List.count_eq_zero, count_hum_label row (Or.inl rfl), hd]
        decide
      · rw [← List.count_eq_zero, count_hum_label row (Or.inr (Or.inr (Or.inl rfl))), hd]
        decide
      · rw [← List.count_eq_zero, count_hum_label row (Or.inr (Or.inr (Or.inr rfl))), hd]
        decide
    · intro h1 h2 h
      have hd := humAlerts_dangerHigh h1 h2 h
      refine ⟨mem_blocks_of_hum (by rw [hd]; exact List.mem_singleton_self _),
        ?_, ?_, ?_⟩
      · rw [← List.count_eq_zero, count_hum_label row (Or.inl rfl), hd]
        decide
      · rw [← List.count_eq_zero, count_hum_label row (Or.inr (Or.inl rfl)), hd]
        decide
      · rw [← List.count_eq_zero, count_hum_label row (Or.inr (Or.inr (Or.inr rfl))), hd]
        decide
    · intro h1 h2 h3 h
      have hd := humAlerts_warningHigh h1 h2 h3 h
      refine ⟨mem_blocks_of_hum (by rw [hd]; exact List.mem_singleton_self _),
        ?_, ?_, ?_⟩
      · rw [← List.count_eq_zero, count_hum_label row (Or.inl rfl), hd]
        decide
      · rw [← List.count_eq_zero, count_hum_label row (Or.inr (Or.inl rfl)), hd]
        decide
      · rw [← List.count_eq_zero, count_hum_label row (Or.inr (Or.inr (Or.inl rfl))), hd]
        decide

/-- Witness for `classify_step_dimension_discipline`, at a row with NH3,
CH4, CO and Temp above their danger thresholds and humidity below
danger-low. -/
theorem classify_step_dimension_discipline_witness :
    (nh3DangerMsg ∈ get_detailed_alerts (60, 60000, 300, 40, 10)
        ∧ nh3WarningMsg ∉ get_detailed_alerts (60, 60000, 300, 40, 10))
      ∧ (ch4DangerMsg ∈ get_detailed_alerts (60, 60000, 300, 40, 10)
        ∧ ch4WarningMsg ∉ get_detailed_alerts (60, 60000, 300, 40, 10))
      ∧ (coDangerMsg ∈ get_detailed_alerts (60, 60000, 300, 40, 10)
        ∧ coWarningMsg ∉ get_detailed_alerts (60, 60000, 300, 40, 10))
      ∧ (tempDangerMsg ∈ get_detailed_alerts (60, 60000, 300, 40, 10)
        ∧ tempWarningMsg ∉ get_detailed_alerts (60, 60000, 300, 40, 10))
      ∧ (humDangerLowMsg ∈ get_detailed_alerts (60, 60000, 300, 40, 10)
        ∧ humWarningLowMsg ∉ get_detailed_alerts (60, 60000, 300, 40, 10)
        ∧ humDangerHighMsg ∉ get_detailed_alerts (60, 60000, 300, 40, 10)
        ∧ humWarningHighMsg ∉ get_detailed_alerts (60, 60000, 300, 40, 10))
      ∧ (humWarningHighMsg ∈ get_detailed_alerts (0, 0, 0, 0, 75)
        ∧ humDangerLowMsg ∉ get_detailed_alerts (0, 0, 0, 0, 75)
        ∧ humWarningLowMsg ∉ get_detailed_alerts (0, 0, 0, 0, 75)
        ∧ humDangerHighMsg ∉ get_detailed_alerts (0, 0, 0, 0, 75)) :=
  ⟨(classify_step_dimension_discipline (60, 60000, 300, 40, 10)).2.2.2.2.2.1
      (by decide),
    (classify_step_dimension_discipline (60, 60000, 300, 40, 10)).2.2.2.2.2.2.1
      (by decide),
    (classify_step_dimension_discipline
        (60, 60000, 300, 40, 10)).2.2.2.2.2.2.2.1 (by decide),
    (classify_step_dimension_discipline
        (60, 60000, 300, 40, 10)).2.2.2.2.2.2.2.2.1 (by decide),
    (classify_step_dimension_discipline
        (60, 60000, 300, 40, 10)).2.2.2.2.2.2.2.2.2.1 (by decide),
    (classify_step_dimension_discipline
        (0, 0, 0, 0, 75)).2.2.2.2.2.2.2.2.2.2.2.2 (by decide) (by decide)
      (by decide) (by decide)⟩

/-! ## The hourly aggregation (claim C8) -/

/-- Concatenating the `n` six-element chunks of a `6n`-element list gives
back the list. -/
lemma chunks_flatten (n : Nat) :
    ∀ l : List Row, l.length = n * 6 →
      ((List.range n).map (fun h => (l.drop (h * 6)).take 6)).flatten = l := by
  induction n with
  | zero =>
    intro l hl
    simp only [List.range_zero, List.map_nil, List.flatten_nil]
    exact (List.length_eq_zero.mp (by simpa using hl)).symm
  | succ n ih =>
    intro l hl
    rw [List.range_succ_eq_map, List.map_cons, List.map_map, List.flatten_cons]
    have hfun : ((fun h => (l.drop (h * 6)).take 6) ∘ Nat.succ)
        = fun h => ((l.drop 6).drop (h * 6)).take 6 := by
      funext h
      simp only [Function.comp_apply]
      rw [List.drop_drop]
      have : 6 + h * 6 = Nat.succ h * 6 := by omega
      rw [this]
    rw [hfun, ih (l.drop 6) (by rw [List.length_drop, hl]; omega)]
    exact List.take_append_drop 6 l

lemma hourlyBucket_getElem? (preds : List Row) (h i : Nat) (hi : i < 6) :
    (hourlyBucket preds h)[i]? = preds[h * 6 + i]? := by
  unfold hourlyBucket
  rw [List.getElem?_take, List.getElem?_drop, if_pos hi]

/-- C8: over a 36-step forecast, the aggregation produces exactly 6
buckets in chronological order; bucket `h` consists of exactly the 6
steps with indices `h*6 .. h*6+5`; the buckets concatenate back to the
whole forecast (disjoint cover); and the `h`-th aggregated value is the
per-dimension arithmetic mean of bucket `h`. -/
theorem aggregate_six_buckets (preds : List Row) (hlen : preds.length = 36) :
    (hourly_forecast preds).length = 6
    ∧ (∀ h, h < 6 → (hourlyBucket preds h).length = 6)
    ∧ (∀ h i, h < 6 → i < 6 →
        (hourlyBucket preds h)[i]? = preds[h * 6 + i]?)
    ∧ ((List.range 6).map (fun h => hourlyBucket preds h)).flatten = preds
    ∧ (∀ h, h < 6 →
        (hourly_forecast preds)[h]? = some (rowMean (hourlyBucket preds h))) := by
  refine ⟨by simp [hourly_forecast], ?_, ?_, ?_, ?_⟩
  · intro h hh
    unfold hourlyBucket
    rw [List.length_take, List.length_drop, hlen]
    omega
  · intro h i _ hi
    exact hourlyBucket_getElem? preds h i hi
  · simpa [hourlyBucket] using chunks_flatten 6 preds (by rw [hlen])
  · intro h hh
    unfold hourly_forecast
    simp [List.getElem?_range, hh]

/-- Witness for `aggregate_six_buckets` on a concrete 36-step forecast. -/
theorem aggregate_six_buckets_witness :
    (hourly_forecast (List.replicate 36 ((0 : ℚ), (0 : ℚ), (0 : ℚ), (0 : ℚ),
        (0 : ℚ)))).length = 6
      ∧ ((List.range 6).map (fun h =>
          hourlyBucket (List.replicate 36 ((0 : ℚ), (0 : ℚ), (0 : ℚ), (0 : ℚ),
            (0 : ℚ))) h)).flatten
        = List.replicate 36 ((0 : ℚ), (0 : ℚ), (0 : ℚ), (0 : ℚ), (0 : ℚ)) :=
  ⟨(aggregate_six_buckets _ (by simp)).1,
    (aggregate_six_buckets _ (by simp)).2.2.2.1⟩

/-! ## Claims C1 and C2: the summary status and alert list

`get_detailed_alerts` never returns an empty list — a fully safe row
yields `["✅ All levels safe."]` — and `any(...)` of a list holding one
non-empty string is `True` in Python.  The `danger_count` loop therefore
counts *every* row of a 36-step forecast, and the all-clear marker enters
`all_alerts` for safe rows.  Both facts contradict the stated spec; the
two theorems below evaluate the code on a forecast whose every step is
within all warning thresholds. -/

/-- C1 (code-bug evidence): on a 36-step forecast in which every step is
within all warning thresholds, the row classifier yields the all-clear
marker on every (identical) step, yet the summary status is `"Danger"`,
not `"Safe"`: the `any(get_detailed_alerts(row))` test is true for every
row because the classifier never returns an empty list. -/
theorem summary_status_danger_on_all_safe_forecast :
    crossesWarning ((0 : ℚ), 0, 0, 0, 50) = false
      ∧ get_detailed_alerts ((0 : ℚ), 0, 0, 0, 50) = [allClearMsg]
      ∧ (get_reticulum_summary "t"
          (List.replicate 36 ((0 : ℚ), 0, 0, 0, 50))
          ((0 : ℚ), 0, 0, 0, 50)).status = "Danger"
      ∧ (get_reticulum_summary "t"
          (List.replicate 36 ((0 : ℚ), 0, 0, 0, 50))
          ((0 : ℚ), 0, 0, 0, 50)).status ≠ "Safe" := by
  refine ⟨by decide, by decide, ?_, ?_⟩
  · rfl
  · intro hc
    rw [show (get_reticulum_summary "t"
        (List.replicate 36 ((0 : ℚ), 0, 0, 0, 50))
        ((0 : ℚ), 0, 0, 0, 50)).status = "Danger" from rfl] at hc
    exact absurd hc (by decide)

/-- C2 (code-bug evidence): on the same all-safe 36-step forecast the
union of non-all-clear labels is empty, yet the summary alert list is
`["✅ All levels safe."]` — the all-clear marker appears in it and the
"no hazards detected" fallback is never reached (the deduplicated pool is
never empty). -/
theorem summary_alerts_contain_all_clear_marker :
    crossesWarning ((0 : ℚ), 0, 0, 0, 50) = false
      ∧ (get_reticulum_summary "t"
          (List.replicate 36 ((0 : ℚ), 0, 0, 0, 50))
          ((0 : ℚ), 0, 0, 0, 50)).alerts = [allClearMsg]
      ∧ allClearMsg ∈ (get_reticulum_summary "t"
          (List.replicate 36 ((0 : ℚ), 0, 0, 0, 50))
          ((0 : ℚ), 0, 0, 0, 50)).alerts
      ∧ (get_reticulum_summary "t"
          (List.replicate 36 ((0 : ℚ), 0, 0, 0, 50))
          ((0 : ℚ), 0, 0, 0, 50)).alerts ≠ [noHazardsMsg] := by
  have halerts : (get_reticulum_summary "t"
      (List.replicate 36 ((0 : ℚ), 0, 0, 0, 50))
      ((0 : ℚ), 0, 0, 0, 50)).alerts = [allClearMsg] := rfl
  refine ⟨by decide, halerts, ?_, ?_⟩
  · rw [halerts]
    exact List.mem_singleton_self _
  · rw [halerts]
    intro hc
    exact absurd hc (by decide)

/-! ## Claim C3: frame reassembly of a two-line frame -/

/-- C3 counterexample: feeding `\x7b"nh3":[1,2` then `3]\x7d` emits one
frame only after the second line, but the frame is the separator-less
concatenation, which parses to `\x7b"nh3":[1,23]\x7d` — *not* structurally
equal to `\x7b"nh3":[1,2,3]\x7d` as the claim states. -/
theorem frame_reassembly_claim_counterexample :
    (feed AsmState.init "\x7b\x22nh3\x22:[1,2").2 = none
      ∧ (feed (feed AsmState.init "\x7b\x22nh3\x22:[1,2").1 "3]\x7d").2
        = some "\x7b\x22nh3\x22:[1,23]\x7d"
      ∧ jsonParse (normalizeQuotes "\x7b\x22nh3\x22:[1,23]\x7d")
        ≠ some (Json.obj [("nh3", Json.arr [Json.num 1, Json.num 2, Json.num 3])]) := by
  refine ⟨rfl, rfl, ?_⟩
  intro hc
  rw [show jsonParse (normalizeQuotes "\x7b\x22nh3\x22:[1,23]\x7d")
      = some (Json.obj [("nh3", Json.arr [Json.num 1, Json.num 23])]) from rfl] at hc
  simp at hc

/-- C3 amended: the two lines emit exactly one frame, only after the
second line (the first line leaves the assembler started with counter 1
and emits nothing); the emitted frame is the direct concatenation of the
two lines and, after quote normalization, parses structurally equal to
`\x7b"nh3":[1,23]\x7d`. -/
theorem frame_reassembly_two_lines :
    (feed AsmState.init "\x7b\x22nh3\x22:[1,2").2 = none
      ∧ (feed AsmState.init "\x7b\x22nh3\x22:[1,2").1
        = { data := "\x7b\x22nh3\x22:[1,2", json_started := true, brace_count := 1 }
      ∧ feed (feed AsmState.init "\x7b\x22nh3\x22:[1,2").1 "3]\x7d"
        = (AsmState.init, some ("\x7b\x22nh3\x22:[1,2" ++ "3]\x7d"))
      ∧ ("\x7b\x22nh3\x22:[1,2" ++ "3]\x7d" : String) = "\x7b\x22nh3\x22:[1,23]\x7d"
      ∧ jsonParse (normalizeQuotes "\x7b\x22nh3\x22:[1,23]\x7d")
        = some (Json.obj [("nh3", Json.arr [Json.num 1, Json.num 23])]) :=
  ⟨rfl, rfl, rfl, rfl, rfl⟩

/-! ## Claims C4 and C5: failure handling in the ingestion cycle -/

def oracleConnErrEffects : CycleEffects :=
  { loadsResult := .ok ()
    csvWriteResult := .ok ()
    predictResult := .error .requestsConnectionError
    exportResult := .ok 200
    summaryWriteResult := .ok () }

def csvFailEffects : CycleEffects :=
  { loadsResult := .ok ()
    csvWriteResult := .error .osError
    predictResult := .ok 200
    exportResult := .ok 200
    summaryWriteResult := .ok () }

def exportNon200Effects : CycleEffects :=
  { loadsResult := .ok ()
    csvWriteResult := .ok ()
    predictResult := .ok 200
    exportResult := .ok 500
    summaryWriteResult := .ok () }

def predictTimeoutEffects : CycleEffects :=
  { loadsResult := .ok ()
    csvWriteResult := .ok ()
    predictResult := .error .requestsTimeout
    exportResult := .ok 200
    summaryWriteResult := .ok () }

def summaryWriteFailEffects : CycleEffects :=
  { loadsResult := .ok ()
    csvWriteResult := .ok ()
    predictResult := .ok 200
    exportResult := .ok 200
    summaryWriteResult := .error .osError }

/-- C4 counterexample: a `requests` connection error raised by the
`/predict` call is not caught by any handler of the loop — the cycle does
not merely abort, the read loop terminates. -/
theorem oracle_error_claim_counterexample :
    (runCycle oracleConnErrEffects).1
      = CycleResult.raised PyExn.requestsConnectionError
      ∧ (runCycle oracleConnErrEffects).1 ≠ CycleResult.completed
      ∧ (runCycle oracleConnErrEffects).1 ≠ CycleResult.skipped := by decide

/-- C4 amended: an oracle call that *returns* a non-success HTTP status
ends only the cycle (the read loop continues: non-200 from `/predict` is
only logged, non-200 from `/export_reticulum` runs `continue`), but a
network/connection error or timeout *raised* by either oracle call
escapes the only handler (`except json.JSONDecodeError`) and terminates
the read loop. -/
theorem oracle_failure_handling (eff : CycleEffects) :
    (∀ s1 s2, eff.loadsResult = .ok () → eff.csvWriteResult = .ok ()
      → eff.predictResult = .ok s1 → eff.exportResult = .ok s2 → s2 ≠ 200
      → (runCycle eff).1 = CycleResult.skipped)
    ∧ (∀ s1, eff.loadsResult = .ok () → eff.csvWriteResult = .ok ()
      → eff.predictResult = .ok s1 → eff.exportResult = .ok 200
      → eff.summaryWriteResult = .ok ()
      → (runCycle eff).1 = CycleResult.completed)
    ∧ (∀ e, (e = PyExn.requestsConnectionError ∨ e = PyExn.requestsTimeout)
      → eff.loadsResult = .ok () → eff.csvWriteResult = .ok ()
      → eff.predictResult = .error e
      → (runCycle eff).1 = CycleResult.raised e)
    ∧ (∀ e s1, (e = PyExn.requestsConnectionError ∨ e = PyExn.requestsTimeout)
      → eff.loadsResult = .ok () → eff.csvWriteResult = .ok ()
      → eff.predictResult = .ok s1 → eff.exportResult = .error e
      → (runCycle eff).1 = CycleResult.raised e) := by
  obtain ⟨lr, cw, pr, ex, sw⟩ := eff
  refine ⟨?_, ?_, ?_, ?_⟩
  · intro s1 s2 h1 h2 h3 h4 hs
    simp only at h1 h2 h3 h4
    subst h1; subst h2; subst h3; subst h4
    simp [runCycle, hs]
  · intro s1 h1 h2 h3 h4 h5
    simp only at h1 h2 h3 h4 h5
    subst h1; subst h2; subst h3; subst h4; subst h5
    simp [runCycle]
  · intro e he h1 h2 h3
    simp only at h1 h2 h3
    subst h1; subst h2; subst h3
    rcases he with rfl | rfl <;> simp [runCycle, handleCycleExn]
  · intro e s1 he h1 h2 h3 h4
    simp only at h1 h2 h3 h4
    subst h1; subst h2; subst h3; subst h4
    rcases he with rfl | rfl <;> simp [runCycle, handleCycleExn]

/-- Witness for `oracle_failure_handling` at concrete effect records. -/
theorem oracle_failure_handling_witness :
    (runCycle exportNon200Effects).1 = CycleResult.skipped
      ∧ (runCycle allOkEffects).1 = CycleResult.completed
      ∧ (runCycle predictTimeoutEffects).1
        = CycleResult.raised PyExn.requestsTimeout
      ∧ (runCycle oracleConnErrEffects).1
        = CycleResult.raised PyExn.requestsConnectionError :=
  ⟨(oracle_failure_handling exportNon200Effects).1 200 500 rfl rfl rfl rfl
      (by decide),
    (oracle_failure_handling allOkEffects).2.1 200 rfl rfl rfl rfl rfl,
    (oracle_failure_handling predictTimeoutEffects).2.2.1 _ (Or.inr rfl)
      rfl rfl rfl,
    (oracle_failure_handling oracleConnErrEffects).2.2.1 _ (Or.inl rfl)
      rfl rfl rfl⟩

/-- C5 counterexample: an `OSError` from the cumulative CSV write is not
caught by any handler — the cycle does not continue to the downstream
forecast/summarize/dispatch stages, and the read loop terminates. -/
theorem persistence_claim_counterexample :
    runCycle csvFailEffects
      = (CycleResult.raised PyExn.osError, [Stage.parseJson, Stage.csvExport])
      ∧ Stage.predictCall ∉ (runCycle csvFailEffects).2
      ∧ Stage.dispatch ∉ (runCycle csvFailEffects).2
      ∧ (runCycle csvFailEffects).1 ≠ CycleResult.completed
      ∧ (runCycle csvFailEffects).1 ≠ CycleResult.skipped := by decide

/-- C5 amended: a disk-write failure (`OSError`) while persisting an
artifact is *fatal*: a failing cumulative-CSV write terminates the read
loop before any downstream stage runs, and a failing summary-JSON write
terminates the read loop before dispatch. -/
theorem persistence_failure_handling (eff : CycleEffects) :
    (eff.loadsResult = .ok () → eff.csvWriteResult = .error PyExn.osError
      → runCycle eff
        = (CycleResult.raised PyExn.osError, [Stage.parseJson, Stage.csvExport]))
    ∧ (∀ s1, eff.loadsResult = .ok () → eff.csvWriteResult = .ok ()
      → eff.predictResult = .ok s1 → eff.exportResult = .ok 200
      → eff.summaryWriteResult = .error PyExn.osError
      → (runCycle eff).1 = CycleResult.raised PyExn.osError
        ∧ Stage.dispatch ∉ (runCycle eff).2) := by
  obtain ⟨lr, cw, pr, ex, sw⟩ := eff
  refine ⟨?_, ?_⟩
  · intro h1 h2
    simp only at h1 h2
    subst h1; subst h2
    simp [runCycle, handleCycleExn]
  · intro s1 h1 h2 h3 h4 h5
    simp only at h1 h2 h3 h4 h5
    subst h1; subst h2; subst h3; subst h4; subst h5
    simp [runCycle, handleCycleExn]

/-- Witness for `persistence_failure_handling` at concrete effect
records. -/
theorem persistence_failure_handling_witness :
    runCycle csvFailEffects
      = (CycleResult.raised PyExn.osError, [Stage.parseJson, Stage.csvExport])
      ∧ ((runCycle summaryWriteFailEffects).1 = CycleResult.raised PyExn.osError
        ∧ Stage.dispatch ∉ (runCycle summaryWriteFailEffects).2) :=
  ⟨(persistence_failure_handling csvFailEffects).1 rfl rfl,
    (persistence_failure_handling summaryWriteFailEffects).2 200
      rfl rfl rfl rfl rfl⟩

/-! ## Claim C9: endpoints return an error-shaped document -/

/-- C9: when the endpoint body raises (modelled as an `Except.error`
outcome), both `/predict` and `/export_reticulum` return a JSON object
whose payload is the error message string, rather than propagating the
exception (the handlers are total functions into `EndpointResp`, so a
200-level transport status is produced by the framework). -/
theorem endpoints_return_error_document (ts msg : String) (flag : Bool) :
    predict_gas_levels ts flag (Except.error msg) = EndpointResp.errorDoc msg
      ∧ export_to_reticulum ts (Except.error msg) = EndpointResp.errorDoc msg :=
  ⟨rfl, rfl⟩

/-! ## Claim C10: a mid-frame opening-brace line restarts assembly -/

/-- C10: any non-empty line starting with an opening brace makes `feed`
discard the accumulated buffer, restart assembly with that line as the
new frame start and the nesting counter reset to 1, and emit nothing —
for *any* prior assembler state, in particular mid-frame. -/
theorem feed_restart_on_brace_line (st : AsmState) (line : String)
    (h : startsWithBrace line = true) :
    feed st line
      = ({ data := line, json_started := true, brace_count := 1 }, none) := by
  have hne : ¬ line.data.isEmpty = true := by
    intro he
    unfold startsWithBrace at h
    cases hd : line.data with
    | nil => rw [hd] at h; simp at h
    | cons c cs => rw [hd] at he; simp at he
  unfold feed
  rw [if_neg hne, if_pos h]

/-- Witness for `feed_restart_on_brace_line`: a started state with a
partially accumulated buffer and counter 2, fed a line starting with an
opening brace. -/
theorem feed_restart_on_brace_line_witness :
    feed { data := "\x7b\x22a\x22:[", json_started := true, brace_count := 2 }
        "\x7b\x22b\x22:1"
      = ({ data := "\x7b\x22b\x22:1", json_started := true, brace_count := 1 },
          none) :=
  feed_restart_on_brace_line _ _ (by decide)

end LoRaComm
